import Mathlib

/-!
Shallow embedding of the decomposition-and-rescoring engine of
`simulation2.py` (function `run_simulation`) over exact rational arithmetic.

Conventions:
* `ℚ` stands for the Python floats; all arithmetic in the source is exact
  rational arithmetic on the inputs we consider, except where a division by
  zero produces non-finite floats (`inf`/`NaN`).  Those non-finite results
  are modelled as `none : Option ℚ`.
* Python exceptions are modelled by the `Except PyExc` monad.
-/

namespace Simulation2

/-- Python exceptions that the embedded fragment of `run_simulation` can
raise.  `zeroDivisionError` is what `np.average` raises when the weights sum
to zero; `missingVariables` models the `ValueError` of line 159 whose message
embeds the full list of missing variables; `valueError` and `otherError`
stand for any other exception type that the body of the per-variable loop
might raise. -/
inductive PyExc where
| zeroDivisionError : PyExc
| valueError : String → PyExc
| missingVariables : List String → PyExc
| otherError : String → PyExc
deriving DecidableEq

/-- One row of the `data_2024` sheet, restricted to the columns used for a
single outcome variable: the demographic key, the population, the baseline
structural weights `s1,s2,s3` and the raw observed value `x` of the
variable. -/
structure Cell where
  age : String
  sex : String
  population : ℚ
  s1 : ℚ
  s2 : ℚ
  s3 : ℚ
  x : ℚ
deriving DecidableEq

/-- One row of the `parameters` sheet for a single variable: the four
sensitivity coefficients and the list of eligible age groups (the non-null
entries of the `age_*` columns). -/
structure ParamRow where
  s_n_men : ℚ
  s_n_women : ℚ
  w_s_men : ℚ
  w_s_women : ℚ
  valid_ages : List String
deriving DecidableEq

/-- The `<var>_s_n` column (lines 190-199): 1.0 by default, the men/women
sensitivity for cells whose sex is `M`/`K` and whose age is eligible. -/
def ratio_s_n (p : ParamRow) (c : Cell) : ℚ :=
  if c.sex = "M" ∧ c.age ∈ p.valid_ages then p.s_n_men
  else if c.sex = "K" ∧ c.age ∈ p.valid_ages then p.s_n_women
  else 1

/-- The `<var>_w_s` column (lines 191-201): 1.0 by default, the men/women
cross-sensitivity for cells whose sex is `M`/`K` and whose age is
eligible. -/
def ratio_w_s (p : ParamRow) (c : Cell) : ℚ :=
  if c.sex = "M" ∧ c.age ∈ p.valid_ages then p.w_s_men
  else if c.sex = "K" ∧ c.age ∈ p.valid_ages then p.w_s_women
  else 1

/-- The `<var>_denominator` column (line 374):
`s1 + s2 * s_n + s3 * s_n * w_s`. -/
def denominator (c : Cell) (sn ws : ℚ) : ℚ :=
  c.s1 + c.s2 * sn + c.s3 * sn * ws

/-- The three layer columns `<var>_s1`, `<var>_s2`, `<var>_s3`
(lines 375-377): `layer1 = x / denominator`, `layer2 = layer1 * s_n`,
`layer3 = layer2 * w_s`.  When the denominator is zero the float layers are
non-finite (`±inf`, or `NaN` for `x = 0`) and every value computed from them
downstream is non-finite as well; this is modelled by `none`. -/
def mkLayers (c : Cell) (sn ws : ℚ) : Option (ℚ × ℚ × ℚ) :=
  if denominator c sn ws = 0 then none
  else
    let l1 := c.x / denominator c sn ws
    some (l1, l1 * sn, l1 * sn * ws)

/-- Recombination of the three layers with a weight triple, the common shape
of lines 378 and 379. -/
def recombine (w1 w2 w3 : ℚ) (L : ℚ × ℚ × ℚ) : ℚ :=
  w1 * L.1 + w2 * L.2.1 + w3 * L.2.2

/-- The `<var>_bs` column (line 378): the layers recombined with the baseline
weights `s1,s2,s3`. -/
def value_bs (c : Cell) (sn ws : ℚ) : Option ℚ :=
  (mkLayers c sn ws).map (recombine c.s1 c.s2 c.s3)

/-- The `<var>_as` column (line 379): the layers recombined with the
alternative weights `s1_as,s2_as,s3_as`. -/
def value_as (c : Cell) (alt : ℚ × ℚ × ℚ) (sn ws : ℚ) : Option ℚ :=
  (mkLayers c sn ws).map (recombine alt.1 alt.2.1 alt.2.2)

/-- The shock-scenario configuration (lines 104-114): a scenario type string
and the numeric knobs, all present after the defaults are merged in. -/
structure ShockScenario where
  scenario_type : String
  s1_change : ℚ
  s2_change : ℚ
  s3_change : ℚ
  s1_reallocation_percentage : ℚ
deriving DecidableEq

/-- One row of the `data_2012` sheet used by the historical-substitution
scenario: the demographic key and the three 2012 weights. -/
structure WeightRow where
  age : String
  sex : String
  s1 : ℚ
  s2 : ℚ
  s3 : ℚ
deriving DecidableEq

/-- The left join of lines 231-236 on `(age, sex)`, specialised to one cell:
the first row of the 2012 table carrying the cell's key, if there is one. -/
def lookup2012 (t : List WeightRow) (c : Cell) : Option WeightRow :=
  t.find? (fun r => decide (r.age = c.age ∧ r.sex = c.sex))

/-- Alternative weights of the `use_2012_values` branch (lines 247-249):
`fillna` keeps the baseline weights for cells with no 2012 match. -/
def altWeightsHist (t : List WeightRow) (c : Cell) : ℚ × ℚ × ℚ :=
  match lookup2012 t c with
  | some r => (r.s1, r.s2, r.s3)
  | none => (c.s1, c.s2, c.s3)

/-- Alternative weights of the `s1_reallocated_to_s2` branch
(lines 260-263). -/
def reallocWeights (sc : ShockScenario) (c : Cell) : ℚ × ℚ × ℚ :=
  (c.s1 - c.s1 * sc.s1_reallocation_percentage,
   c.s2 + c.s1 * sc.s1_reallocation_percentage,
   c.s3)

/-- Alternative weights of the default (Percentage Change) branch
(lines 270-272). -/
def pctChangeWeights (sc : ShockScenario) (c : Cell) : ℚ × ℚ × ℚ :=
  (c.s1 + sc.s1_change, c.s2 + sc.s2_change, c.s3 + sc.s3_change)

/-- The per-cell scenario dispatch of lines 214-272: historical substitution,
reallocation, and every other scenario-type string falls through to the
Percentage Change branch. -/
def altWeights (sc : ShockScenario) (t : List WeightRow) (c : Cell) : ℚ × ℚ × ℚ :=
  if sc.scenario_type = "use_2012_values" then altWeightsHist t c
  else if sc.scenario_type = "s1_reallocated_to_s2" then reallocWeights sc c
  else pctChangeWeights sc c

/-- The number of cells of `data_2024` that found no `(age, sex)` match in
the 2012 table (line 241, `df['s1_from2012'].isnull().sum()`). -/
def unmatchedCount (t : List WeightRow) (cells : List Cell) : Nat :=
  (cells.filter (fun c => (lookup2012 t c).isNone)).length

/-- The warning text printed at line 243 for unmatched demographic groups. -/
def histWarning (n : Nat) : String :=
  "Warning: " ++ toString n ++ " demographic groups in data_2024 found no s-value match in data_2012."

/-- The scenario application over the whole table, with its error and warning
behaviour (lines 214-272): `use_2012_values` without a loaded 2012 sheet
raises a `ValueError` (line 216); a loaded 2012 sheet yields alternative
weights for every cell plus at most a warning about unmatched groups
(line 243); the other branches never raise and never warn. -/
def applyScenarioChecked (sc : ShockScenario) (hist : Option (List WeightRow))
    (cells : List Cell) : Except PyExc (List (ℚ × ℚ × ℚ) × List String) :=
  if sc.scenario_type = "use_2012_values" then
    match hist with
    | none => Except.error (PyExc.valueError "data_2012_df not loaded, cannot proceed with Use 2012 Values scenario.")
    | some t =>
        Except.ok (cells.map (altWeightsHist t),
          if 0 < unmatchedCount t cells then [histWarning (unmatchedCount t cells)] else [])
  else if sc.scenario_type = "s1_reallocated_to_s2" then
    Except.ok (cells.map (reallocWeights sc), [])
  else
    Except.ok (cells.map (pctChangeWeights sc), [])

/-- NaN-propagating sum of a list of float values: the sum is a number only
when every summand is. -/
def sumOption : List (Option ℚ) → Option ℚ
| [] => some 0
| v :: vs => do
    let a ← v
    let r ← sumOption vs
    pure (a + r)

/-- The call `np.average(values, weights=df['population'])` of lines 405-406:
`np.average` first sums the weights and raises `ZeroDivisionError` when that
sum is zero; otherwise it returns `(values * weights).sum() / weights.sum()`,
which is `NaN` (here `none`) as soon as one of the values is non-finite. -/
def npAverage (cells : List Cell) (f : Cell → Option ℚ) : Except PyExc (Option ℚ) :=
  if (cells.map Cell.population).sum = 0 then Except.error PyExc.zeroDivisionError
  else
    Except.ok ((sumOption (cells.map (fun c => (f c).map (fun v => v * c.population)))).map
      (fun s => s / (cells.map Cell.population).sum))

/-- The population-weighted baseline aggregate of line 405. -/
def resultBsE (p : ParamRow) (cells : List Cell) : Except PyExc (Option ℚ) :=
  npAverage cells (fun c => value_bs c (ratio_s_n p c) (ratio_w_s p c))

/-- The population-weighted alternative aggregate of line 406. -/
def resultAsE (p : ParamRow) (alt : Cell → ℚ × ℚ × ℚ) (cells : List Cell) :
    Except PyExc (Option ℚ) :=
  npAverage cells (fun c => value_as c (alt c) (ratio_s_n p c) (ratio_w_s p c))

/-- NaN-propagating subtraction, for `result_as - result_bs` (line 413). -/
def optSub (a b : Option ℚ) : Option ℚ := do
  let x ← a
  let y ← b
  pure (x - y)

/-- Line 414: `((result_as - result_bs) / result_bs * 100) if result_bs != 0
else np.nan`; a `NaN` operand makes the result `NaN` in either branch. -/
def relChangePct (rbs ras : Option ℚ) : Option ℚ :=
  match rbs, ras with
  | some b, some a => if b = 0 then none else some ((a - b) / b * 100)
  | _, _ => none

/-- One summary record of the `results` list (lines 409-415 and 784-790),
restricted to the common fields.  `none` models `NaN`. -/
structure SummaryRow where
  varName : String
  result_bs : Option ℚ
  result_as : Option ℚ
  absolute_change : Option ℚ
  relative_change_pct : Option ℚ
deriving DecidableEq

/-- The summary row appended in the `except ZeroDivisionError` handler
(lines 784-790): every result field is `NaN`. -/
def nanRow (v : String) : SummaryRow := ⟨v, none, none, none, none⟩

/-- The summary-row computation of lines 404-415 for one variable: the two
weighted averages (which can raise `ZeroDivisionError`) followed by the pure
change fields. -/
def computeSummary (v : String) (p : ParamRow) (alt : Cell → ℚ × ℚ × ℚ)
    (cells : List Cell) : Except PyExc SummaryRow := do
  let rbs ← resultBsE p cells
  let ras ← resultAsE p alt cells
  pure ⟨v, rbs, ras, optSub ras rbs, relChangePct rbs ras⟩

/-- The `except ZeroDivisionError` boundary of lines 781-790 around the body
of the per-variable loop: a `ZeroDivisionError` is converted into the NaN
summary row; every other exception escapes the handler (and is re-raised by
the outer handler of lines 935-937). -/
def handleVariable (v : String) (body : Except PyExc SummaryRow) :
    Except PyExc SummaryRow :=
  match body with
  | Except.ok r => Except.ok r
  | Except.error PyExc.zeroDivisionError => Except.ok (nanRow v)
  | Except.error e => Except.error e

/-- The warning printed by the `except ZeroDivisionError` handler
(line 783). -/
def zeroDivWarning (v : String) : String :=
  "Warning: Zero division error when calculating weighted average for " ++ v

/-- The warnings emitted at the variable boundary of lines 781-790: exactly
one message, in the `ZeroDivisionError` case. -/
def variableWarnings (v : String) (body : Except PyExc SummaryRow) : List String :=
  match body with
  | Except.error PyExc.zeroDivisionError => [zeroDivWarning v]
  | _ => []

/-- The per-variable loop of lines 369-793 with the exception boundary: each
entry is a variable name together with the outcome of its loop body (which
may raise any exception); rows accumulate in order, and an exception that is
not a `ZeroDivisionError` aborts the whole loop, discarding the accumulated
rows (the outer handler of lines 935-937 re-raises it). -/
def runLoop : List (String × Except PyExc SummaryRow) → Except PyExc (List SummaryRow)
| [] => Except.ok []
| (v, b) :: rest =>
    match handleVariable v b with
    | Except.ok r => (runLoop rest).map (fun rs => r :: rs)
    | Except.error e => Except.error e

/-- The missing-variable scan of line 157: every variable of the parameter
sheet that is not a column of the data sheet, in parameter-sheet order. -/
def missingVars (paramVars dataCols : List String) : List String :=
  paramVars.filter (fun v => decide (v ∉ dataCols))

/-- Lines 157-159: raise a `ValueError` naming the full list of missing
variables when it is non-empty. -/
def checkMissingVars (paramVars dataCols : List String) : Except PyExc Unit :=
  match missingVars paramVars dataCols with
  | [] => Except.ok ()
  | ms => Except.error (PyExc.missingVariables ms)

/-- The position of the check in `run_simulation`: lines 156-159 run before
the decomposition loop of lines 369-793, so a failing check yields the error
no matter what the rest of the run would compute. -/
def gatedRun {α : Type} (paramVars dataCols : List String) (rest : Except PyExc α) :
    Except PyExc α :=
  match checkMissingVars paramVars dataCols with
  | Except.ok _ => rest
  | Except.error e => Except.error e

/-- One row of the grouped contribution table
`df.groupby(['age','sex'])[col].sum().reset_index()` (lines 433-434 and
462-463). -/
structure GroupRow where
  age : String
  sex : String
  contribution : ℚ
deriving DecidableEq

/-- Generic stable insertion into a sorted list: the new element is placed
before the first element strictly greater than it, hence after all elements
it ties with.  This is the insertion step of numpy's sort kernel, which runs
plain insertion sort on arrays of at most 16 elements. -/
def insertSortedBy {α : Type} (lt : α → α → Bool) (x : α) : List α → List α
| [] => [x]
| y :: ys => if lt x y then x :: y :: ys else y :: insertSortedBy lt x ys

/-- Stable ascending insertion sort (elements inserted in list order, each
landing after its ties). -/
def sortBy {α : Type} (lt : α → α → Bool) (l : List α) : List α :=
  l.foldl (fun acc x => insertSortedBy lt x acc) []

/-- Strict comparison of group rows by absolute contribution, the sort key
`key=abs` of lines 435 and 464. -/
def absLt (a b : GroupRow) : Bool :=
  decide (|a.contribution| < |b.contribution|)

/-- The call `sort_values(col, key=abs, ascending=False)` of lines 435/464:
pandas' `nargsort` with `ascending=False` reverses the array, argsorts it
ascending with the (stable, for at most 16 rows) numpy kernel, and reverses
the resulting order again — which is exactly a stable descending sort of the
original row order. -/
def sortValuesAbsDesc (rows : List GroupRow) : List GroupRow :=
  (sortBy absLt rows.reverse).reverse

/-- Lexicographic order on `(age, sex)` keys, the order in which
`df.groupby(['age','sex'], sort=True)` (the default) lists its groups. -/
def keyLt (a b : String × String) : Bool :=
  decide (a.1 < b.1) || (a.1 == b.1 && decide (a.2 < b.2))

/-- The distinct keys of a key list (order irrelevant here, since `groupbySum`
sorts them anyway). -/
def dedupKeys : List (String × String) → List (String × String)
| [] => []
| k :: ks => if decide (k ∈ dedupKeys ks) then dedupKeys ks else k :: dedupKeys ks

/-- The grouped sum `df.groupby(['age','sex'])[col].sum().reset_index()` of
lines 433/462: one row per distinct `(age, sex)` key, keys listed in sorted
order, carrying the sum of the per-cell contributions of that key. -/
def groupbySum (rows : List GroupRow) : List GroupRow :=
  (sortBy keyLt (dedupKeys (rows.map (fun r => (r.age, r.sex))))).map
    (fun k => ⟨k.1, k.2,
      ((rows.filter (fun r => decide (r.age = k.1 ∧ r.sex = k.2))).map GroupRow.contribution).sum⟩)

/-- The `top_contributing_groups` pipeline of lines 433-435 (and 462-464):
group the per-cell contributions by `(age, sex)`, sort by absolute
contribution descending, keep the head(5). -/
def topGroups (rows : List GroupRow) : List GroupRow :=
  (sortValuesAbsDesc (groupbySum rows)).take 5

/-- Minimum of a list of rationals, `none` for the empty list.  Used to state
the population-weighted bound of the specification. -/
def listMin : List ℚ → Option ℚ
| [] => none
| x :: t =>
    match listMin t with
    | none => some x
    | some m => some (min x m)

/-- Maximum of a list of rationals, `none` for the empty list. -/
def listMax : List ℚ → Option ℚ
| [] => none
| x :: t =>
    match listMax t with
    | none => some x
    | some m => some (max x m)

/-- The cells with nonzero population, whose raw values bound the weighted
average. -/
def nzCells (cells : List Cell) : List Cell :=
  cells.filter (fun c => decide (c.population ≠ 0))

/-! ## Helper lemmas -/

/-- Recombining the layers with the baseline weights gives back the raw value
whenever the denominator is non-zero: the algebraic identity behind the
`_bs` column. -/
theorem value_bs_of_den_ne_zero (c : Cell) (sn ws : ℚ)
    (h : denominator c sn ws ≠ 0) : value_bs c sn ws = some c.x := by
  unfold value_bs mkLayers
  rw [if_neg h]
  simp only [Option.map_some']
  congr 1
  unfold recombine denominator at *
  field_simp
  ring

/-- Recombining the layers with an alternative-weight triple that happens to
equal the baseline weights is the same as the `_bs` value. -/
theorem value_as_baseline (c : Cell) (sn ws : ℚ) :
    value_as c (c.s1, c.s2, c.s3) sn ws = value_bs c sn ws := rfl

/-- `np.average` only looks at the values of the given cells. -/
theorem npAverage_congr (cells : List Cell) (f g : Cell → Option ℚ)
    (h : ∀ c ∈ cells, f c = g c) : npAverage cells f = npAverage cells g := by
  unfold npAverage
  have : cells.map (fun c => (f c).map (fun v => v * c.population))
      = cells.map (fun c => (g c).map (fun v => v * c.population)) := by
    apply List.map_congr_left
    intro c hc
    rw [h c hc]
  rw [this]

/-- When every value is a number, the NaN-propagating weighted sum is the
plain weighted sum. -/
theorem sumOption_weighted (l : List Cell) (f : Cell → Option ℚ) (g : Cell → ℚ)
    (h : ∀ c ∈ l, f c = some (g c)) :
    sumOption (l.map (fun c => (f c).map (fun v => v * c.population)))
      = some ((l.map (fun c => g c * c.population)).sum) := by
  induction l with
  | nil => simp [sumOption]
  | cons c cs ih =>
    have hc : f c = some (g c) := h c (by simp)
    have hcs := ih (fun d hd => h d (by simp [hd]))
    simp only [List.map_cons, List.sum_cons, sumOption, hc, hcs, Option.map_some',
      Option.bind_eq_bind, Option.some_bind]
    rfl

/-- Unfolding of `relChangePct` on two numeric operands. -/
theorem relChangePct_some (b a : ℚ) :
    relChangePct (some b) (some a) = if b = 0 then none else some ((a - b) / b * 100) := rfl

/-- Unfolding of `computeSummary` when neither average raises. -/
theorem computeSummary_ok (v : String) (p : ParamRow) (alt : Cell → ℚ × ℚ × ℚ)
    (cells : List Cell) (rbs ras : Option ℚ)
    (hbs : resultBsE p cells = Except.ok rbs)
    (has : resultAsE p alt cells = Except.ok ras) :
    computeSummary v p alt cells
      = Except.ok ⟨v, rbs, ras, optSub ras rbs, relChangePct rbs ras⟩ := by
  unfold computeSummary
  rw [hbs, has]
  rfl

/-- Weighted averages under a non-zero denominator in every cell: the
baseline aggregate is the plain population-weighted mean of the raw
values. -/
theorem resultBsE_eq (p : ParamRow) (cells : List Cell)
    (hW : (cells.map Cell.population).sum ≠ 0)
    (hden : ∀ c ∈ cells, denominator c (ratio_s_n p c) (ratio_w_s p c) ≠ 0) :
    resultBsE p cells
      = Except.ok (some ((cells.map (fun c => c.x * c.population)).sum
          / (cells.map Cell.population).sum)) := by
  unfold resultBsE npAverage
  rw [if_neg hW, sumOption_weighted cells _ Cell.x
    (fun c hc => value_bs_of_den_ne_zero c _ _ (hden c hc))]
  rfl

/-! ## C1 -/

/-- C1: for every cell (and any sensitivity pair) whose decomposition
denominator `s1 + s2*s_n + s3*s_n*w_s` is non-zero, the `_bs` column
(recombination of the layers with the baseline weights) equals the raw value
`x`, in particular to within `1e-9` relative tolerance. -/
theorem identity_recombination (c : Cell) (sn ws : ℚ)
    (h : denominator c sn ws ≠ 0) :
    ∃ b, value_bs c sn ws = some b ∧ b = c.x ∧
      |b - c.x| ≤ 1 / 1000000000 * |c.x| := by
  refine ⟨c.x, value_bs_of_den_ne_zero c sn ws h, rfl, ?_⟩
  simp

/-- Witness for C1, on the concrete cell of the specification's worked
example (`s1 = 0.2`, `s2 = 0.5`, `s3 = 0.3`, `x = 10`, `s_n = 1.2`,
`w_s = 1.1`, denominator `1.196`). -/
theorem identity_recombination_witness :
    ∃ b, value_bs ⟨"20-24", "M", 100, 2/10, 5/10, 3/10, 10⟩ (12/10) (11/10) = some b ∧
      b = (10 : ℚ) ∧ |b - (10 : ℚ)| ≤ 1 / 1000000000 * |(10 : ℚ)| :=
  identity_recombination ⟨"20-24", "M", 100, 2/10, 5/10, 3/10, 10⟩ (12/10) (11/10)
    (by norm_num [denominator])

/-! ## C3 -/

/-- C3: under the `s1_reallocated_to_s2` scenario, for every reallocation
fraction and every cell, the alternative weights conserve mass between the
first two components (`w1' + w2' = w1 + w2`) and leave the third unchanged
(`w3' = w3`). -/
theorem reallocation_conservation (sc : ShockScenario) (t : List WeightRow)
    (c : Cell) (h : sc.scenario_type = "s1_reallocated_to_s2") :
    (altWeights sc t c).1 + (altWeights sc t c).2.1 = c.s1 + c.s2 ∧
    (altWeights sc t c).2.2 = c.s3 := by
  rw [altWeights, h, if_neg (by decide), if_pos rfl]
  unfold reallocWeights
  constructor
  · ring
  · rfl

/-- Witness for C3 at a concrete scenario (`r = 0.5`) and cell. -/
theorem reallocation_conservation_witness :
    (altWeights ⟨"s1_reallocated_to_s2", 0, 0, 0, 1/2⟩ []
        ⟨"20-24", "M", 100, 2/10, 5/10, 3/10, 10⟩).1 +
      (altWeights ⟨"s1_reallocated_to_s2", 0, 0, 0, 1/2⟩ []
        ⟨"20-24", "M", 100, 2/10, 5/10, 3/10, 10⟩).2.1 = 2/10 + 5/10 ∧
    (altWeights ⟨"s1_reallocated_to_s2", 0, 0, 0, 1/2⟩ []
        ⟨"20-24", "M", 100, 2/10, 5/10, 3/10, 10⟩).2.2 = 3/10 :=
  reallocation_conservation ⟨"s1_reallocated_to_s2", 0, 0, 0, 1/2⟩ []
    ⟨"20-24", "M", 100, 2/10, 5/10, 3/10, 10⟩ rfl

/-! ## C8 -/

/-- C8: when any parameter-sheet variable is missing from the data columns,
the run fails before any decomposition computation (the outcome is the error
no matter what the remaining computation would produce), and the error names
exactly the full list of missing variables. -/
theorem missing_variables_fatal (paramVars dataCols : List String)
    (h : missingVars paramVars dataCols ≠ []) :
    (∀ (α : Type) (rest : Except PyExc α),
      gatedRun paramVars dataCols rest
        = Except.error (PyExc.missingVariables (missingVars paramVars dataCols))) ∧
    (∀ v, v ∈ missingVars paramVars dataCols ↔ v ∈ paramVars ∧ v ∉ dataCols) := by
  constructor
  · intro α rest
    unfold gatedRun checkMissingVars
    cases hm : missingVars paramVars dataCols with
    | nil => exact absurd hm h
    | cons a as => rfl
  · intro v
    simp [missingVars, List.mem_filter]

/-- Witness for C8: parameter variables `a, b, c` against data columns
`[b]` give the full missing list `[a, c]`. -/
theorem missing_variables_fatal_witness :
    (∀ (α : Type) (rest : Except PyExc α),
      gatedRun ["a", "b", "c"] ["b"] rest
        = Except.error (PyExc.missingVariables (missingVars ["a", "b", "c"] ["b"]))) ∧
    (∀ v, v ∈ missingVars ["a", "b", "c"] ["b"] ↔ v ∈ ["a", "b", "c"] ∧ v ∉ ["b"]) :=
  missing_variables_fatal ["a", "b", "c"] ["b"] (by decide)

/-! ## C10 -/

/-- C10: any scenario-type string other than `use_2012_values` and
`s1_reallocated_to_s2` — including misspelled or unknown ones — falls through
to the Percentage Change branch (`w_i' = w_i + delta_i`), and the scenario
application succeeds with no warning. -/
theorem unknown_scenario_pct_change (sc : ShockScenario) (t : List WeightRow)
    (hist : Option (List WeightRow)) (cells : List Cell) (c : Cell)
    (h1 : sc.scenario_type ≠ "use_2012_values")
    (h2 : sc.scenario_type ≠ "s1_reallocated_to_s2") :
    altWeights sc t c = (c.s1 + sc.s1_change, c.s2 + sc.s2_change, c.s3 + sc.s3_change) ∧
    applyScenarioChecked sc hist cells = Except.ok (cells.map (pctChangeWeights sc), []) := by
  constructor
  · rw [altWeights, if_neg h1, if_neg h2]
    rfl
  · unfold applyScenarioChecked
    rw [if_neg h1, if_neg h2]

/-- Witness for C10 at a misspelled scenario type. -/
theorem unknown_scenario_pct_change_witness :
    altWeights ⟨"Percentage Chnage", 1/10, -1/10, 0, 1/2⟩ []
        ⟨"20-24", "M", 100, 2/10, 5/10, 3/10, 10⟩ = (3/10, 2/5, 3/10) ∧
    applyScenarioChecked ⟨"Percentage Chnage", 1/10, -1/10, 0, 1/2⟩ none
        [⟨"20-24", "M", 100, 2/10, 5/10, 3/10, 10⟩]
      = Except.ok ([((3 : ℚ)/10, (2 : ℚ)/5, (3 : ℚ)/10)], []) := by
  have h := unknown_scenario_pct_change ⟨"Percentage Chnage", 1/10, -1/10, 0, 1/2⟩ [] none
    [⟨"20-24", "M", 100, 2/10, 5/10, 3/10, 10⟩]
    ⟨"20-24", "M", 100, 2/10, 5/10, 3/10, 10⟩ (by decide) (by decide)
  norm_num [pctChangeWeights] at h
  norm_num [h.1, h.2]

/-! ## C2 -/

/-- C2 (amended): a Percentage Change scenario with all three deltas zero
reproduces the baseline: for every cell with a non-zero decomposition
denominator the `_as` value equals the raw value `x`; and when the total
population is non-zero the summary row has `absolute_change = 0`, with
`relative_change_pct = 0` whenever `result_bs` is non-zero and `NaN`
(`none`) when `result_bs = 0`. -/
theorem noop_scenario_amended (sc : ShockScenario) (t : List WeightRow)
    (p : ParamRow) (v : String) (cells : List Cell)
    (hty : sc.scenario_type = "Percentage Change")
    (h1 : sc.s1_change = 0) (h2 : sc.s2_change = 0) (h3 : sc.s3_change = 0)
    (hden : ∀ c ∈ cells, denominator c (ratio_s_n p c) (ratio_w_s p c) ≠ 0)
    (hW : (cells.map Cell.population).sum ≠ 0) :
    (∀ c ∈ cells,
      value_as c (altWeights sc t c) (ratio_s_n p c) (ratio_w_s p c) = some c.x) ∧
    ∃ row, computeSummary v p (altWeights sc t) cells = Except.ok row ∧
      row.absolute_change = some 0 ∧
      ∃ b, row.result_bs = some b ∧
        (b ≠ 0 → row.relative_change_pct = some 0) ∧
        (b = 0 → row.relative_change_pct = none) := by
  have halt : ∀ c : Cell, altWeights sc t c = (c.s1, c.s2, c.s3) := by
    intro c
    rw [altWeights, hty, if_neg (by decide), if_neg (by decide)]
    unfold pctChangeWeights
    rw [h1, h2, h3]
    simp
  have has : ∀ c ∈ cells,
      value_as c (altWeights sc t c) (ratio_s_n p c) (ratio_w_s p c) = some c.x := by
    intro c hc
    rw [halt c, value_as_baseline, value_bs_of_den_ne_zero c _ _ (hden c hc)]
  refine ⟨has, ?_⟩
  have hbs := resultBsE_eq p cells hW hden
  have hasE : resultAsE p (altWeights sc t) cells = resultBsE p cells := by
    unfold resultAsE resultBsE
    apply npAverage_congr
    intro c hc
    rw [has c hc, value_bs_of_den_ne_zero c _ _ (hden c hc)]
  have hrow := computeSummary_ok v p (altWeights sc t) cells _ _ hbs (hasE.trans hbs)
  refine ⟨_, hrow, ?_, ?_⟩
  · dsimp only
    simp [optSub]
  · refine ⟨_, rfl, ?_, ?_⟩
    · intro hb
      dsimp only at hb ⊢
      rw [relChangePct_some, if_neg hb]
      simp
    · intro hb
      dsimp only at hb ⊢
      rw [relChangePct_some, if_pos hb]

/-- Witness for C2 (amended), on the specification's concrete 4-cell table
with all deltas zero. -/
theorem noop_scenario_amended_witness :
    (∀ c ∈ [(⟨"20-24", "M", 100, 2/10, 5/10, 3/10, 10⟩ : Cell),
        ⟨"25-29", "M", 150, 3/10, 4/10, 3/10, 15⟩,
        ⟨"20-24", "K", 120, 25/100, 45/100, 3/10, 12⟩,
        ⟨"25-29", "K", 180, 35/100, 35/100, 3/10, 18⟩],
      value_as c
        (altWeights ⟨"Percentage Change", 0, 0, 0, 1/2⟩ [] c)
        (ratio_s_n ⟨12/10, 9/10, 11/10, 95/100, ["20-24", "25-29"]⟩ c)
        (ratio_w_s ⟨12/10, 9/10, 11/10, 95/100, ["20-24", "25-29"]⟩ c) = some c.x) ∧
    ∃ row, computeSummary "v" ⟨12/10, 9/10, 11/10, 95/100, ["20-24", "25-29"]⟩
        (altWeights ⟨"Percentage Change", 0, 0, 0, 1/2⟩ [])
        [⟨"20-24", "M", 100, 2/10, 5/10, 3/10, 10⟩,
         ⟨"25-29", "M", 150, 3/10, 4/10, 3/10, 15⟩,
         ⟨"20-24", "K", 120, 25/100, 45/100, 3/10, 12⟩,
         ⟨"25-29", "K", 180, 35/100, 35/100, 3/10, 18⟩] = Except.ok row ∧
      row.absolute_change = some 0 ∧
      ∃ b, row.result_bs = some b ∧
        (b ≠ 0 → row.relative_change_pct = some 0) ∧
        (b = 0 → row.relative_change_pct = none) :=
  noop_scenario_amended ⟨"Percentage Change", 0, 0, 0, 1/2⟩ []
    ⟨12/10, 9/10, 11/10, 95/100, ["20-24", "25-29"]⟩ "v"
    [⟨"20-24", "M", 100, 2/10, 5/10, 3/10, 10⟩,
     ⟨"25-29", "M", 150, 3/10, 4/10, 3/10, 15⟩,
     ⟨"20-24", "K", 120, 25/100, 45/100, 3/10, 12⟩,
     ⟨"25-29", "K", 180, 35/100, 35/100, 3/10, 18⟩]
    rfl rfl rfl rfl
    (by
      intro c hc
      fin_cases hc <;> norm_num +decide [denominator, ratio_s_n, ratio_w_s])
    (by norm_num)

/-- Counterexample to C2 as stated.  First input: a single cell with raw
value `x = 0` (non-zero denominator, non-zero population); the no-op summary
has `result_bs = 0`, so line 414 yields `NaN` (not `0`) for
`relative_change_pct`.  Second input: a single cell with denominator
`1 + (-1)*1 + 0 = 0` and `x = 10`; its `_as` value is non-finite, not `x`. -/
theorem noop_scenario_counterexample :
    (∃ row, computeSummary "v" ⟨1, 1, 1, 1, []⟩
        (altWeights ⟨"Percentage Change", 0, 0, 0, 1/2⟩ [])
        [⟨"20-24", "M", 1, 1, 0, 0, 0⟩] = Except.ok row ∧
      row.result_bs = some 0 ∧ row.absolute_change = some 0 ∧
      row.relative_change_pct ≠ some 0) ∧
    value_as ⟨"20-24", "M", 1, 1, -1, 0, 10⟩
        (altWeights ⟨"Percentage Change", 0, 0, 0, 1/2⟩ [] ⟨"20-24", "M", 1, 1, -1, 0, 10⟩)
        (ratio_s_n ⟨1, 1, 1, 1, []⟩ ⟨"20-24", "M", 1, 1, -1, 0, 10⟩)
        (ratio_w_s ⟨1, 1, 1, 1, []⟩ ⟨"20-24", "M", 1, 1, -1, 0, 10⟩)
      ≠ some (⟨"20-24", "M", 1, 1, -1, 0, 10⟩ : Cell).x := by
  constructor
  · have hbs : resultBsE ⟨1, 1, 1, 1, []⟩ [⟨"20-24", "M", 1, 1, 0, 0, 0⟩]
        = Except.ok (some 0) := by
      norm_num +decide [resultBsE, npAverage, sumOption, value_bs, mkLayers,
        denominator, recombine, ratio_s_n, ratio_w_s]
    have hasE : resultAsE ⟨1, 1, 1, 1, []⟩
        (altWeights ⟨"Percentage Change", 0, 0, 0, 1/2⟩ [])
        [⟨"20-24", "M", 1, 1, 0, 0, 0⟩] = Except.ok (some 0) := by
      norm_num +decide [resultAsE, npAverage, sumOption, value_as, mkLayers,
        denominator, recombine, ratio_s_n, ratio_w_s, altWeights, pctChangeWeights]
    refine ⟨⟨"v", some 0, some 0, some 0, none⟩, ?_, rfl, rfl, by simp⟩
    rw [computeSummary_ok "v" _ _ _ _ _ hbs hasE]
    norm_num [optSub, relChangePct_some]
  · norm_num +decide [value_as, mkLayers, denominator, recombine, ratio_s_n, ratio_w_s,
      altWeights, pctChangeWeights]

/-! ## C6 -/

/-- C6: aggregating a variable over a table whose population is zero in
every cell does not raise: `np.average` raises `ZeroDivisionError`, the
variable boundary catches it, the summary row is emitted with `NaN`
(`none`) results, and the warning of line 783 is printed. -/
theorem zero_population_nan (v : String) (p : ParamRow)
    (alt : Cell → ℚ × ℚ × ℚ) (cells : List Cell)
    (hpop : ∀ c ∈ cells, c.population = 0) :
    handleVariable v (computeSummary v p alt cells) = Except.ok (nanRow v) ∧
    (nanRow v).result_bs = none ∧ (nanRow v).result_as = none ∧
    variableWarnings v (computeSummary v p alt cells) = [zeroDivWarning v] := by
  have hW : (cells.map Cell.population).sum = 0 := by
    apply List.sum_eq_zero
    intro w hw
    rcases List.mem_map.mp hw with ⟨c, hc, rfl⟩
    exact hpop c hc
  have hbody : computeSummary v p alt cells = Except.error PyExc.zeroDivisionError := by
    unfold computeSummary resultBsE npAverage
    rw [if_pos hW]
    rfl
  rw [hbody]
  exact ⟨rfl, rfl, rfl, rfl⟩

/-- Witness for C6 on a one-cell table with zero population. -/
theorem zero_population_nan_witness :
    handleVariable "v" (computeSummary "v" ⟨1, 1, 1, 1, []⟩
        (fun c => (c.s1, c.s2, c.s3)) [⟨"20-24", "M", 0, 1, 1, 1, 5⟩])
      = Except.ok (nanRow "v") ∧
    (nanRow "v").result_bs = none ∧ (nanRow "v").result_as = none ∧
    variableWarnings "v" (computeSummary "v" ⟨1, 1, 1, 1, []⟩
        (fun c => (c.s1, c.s2, c.s3)) [⟨"20-24", "M", 0, 1, 1, 1, 5⟩])
      = [zeroDivWarning "v"] :=
  zero_population_nan "v" ⟨1, 1, 1, 1, []⟩ (fun c => (c.s1, c.s2, c.s3))
    [⟨"20-24", "M", 0, 1, 1, 1, 5⟩]
    (by intro c hc; fin_cases hc; rfl)

/-! ## C7 -/

/-- C7: under the `use_2012_values` scenario, alternative weights come from
a left join on `(age, sex)` against the 2012 table: a matched cell takes the
2012 weights, an unmatched cell keeps its own baseline weights, and the
table-level application always succeeds — the unmatched count is surfaced
only as a warning, never as an error. -/
theorem historical_substitution_fallback (sc : ShockScenario)
    (t : List WeightRow) (cells : List Cell)
    (h : sc.scenario_type = "use_2012_values") :
    (∀ c : Cell, lookup2012 t c = none → altWeights sc t c = (c.s1, c.s2, c.s3)) ∧
    (∀ (c : Cell) (r : WeightRow), lookup2012 t c = some r →
      altWeights sc t c = (r.s1, r.s2, r.s3)) ∧
    ∃ warns, applyScenarioChecked sc (some t) cells
        = Except.ok (cells.map (altWeights sc t), warns) ∧
      (0 < unmatchedCount t cells → warns = [histWarning (unmatchedCount t cells)]) ∧
      (unmatchedCount t cells = 0 → warns = []) := by
  have haw : ∀ c : Cell, altWeights sc t c = altWeightsHist t c := by
    intro c
    rw [altWeights, h, if_pos rfl]
  refine ⟨?_, ?_, ?_⟩
  · intro c hc
    rw [haw c]
    unfold altWeightsHist
    rw [hc]
  · intro c r hc
    rw [haw c]
    unfold altWeightsHist
    rw [hc]
  · refine ⟨if 0 < unmatchedCount t cells then [histWarning (unmatchedCount t cells)]
      else [], ?_, ?_, ?_⟩
    · unfold applyScenarioChecked
      rw [if_pos h]
      have : cells.map (altWeights sc t) = cells.map (altWeightsHist t) :=
        List.map_congr_left (fun c _ => haw c)
      rw [this]
    · intro hpos
      rw [if_pos hpos]
    · intro hz
      rw [if_neg (by rw [hz]; exact lt_irrefl 0)]

/-- Witness for C7: a 2012 table holding only the `("20-24", "M")` key,
applied to one matched and one unmatched cell. -/
theorem historical_substitution_fallback_witness :
    (∀ c : Cell, lookup2012 [⟨"20-24", "M", 1, 2, 3⟩] c = none →
      altWeights ⟨"use_2012_values", 0, 0, 0, 1/2⟩ [⟨"20-24", "M", 1, 2, 3⟩] c
        = (c.s1, c.s2, c.s3)) ∧
    (∀ (c : Cell) (r : WeightRow), lookup2012 [⟨"20-24", "M", 1, 2, 3⟩] c = some r →
      altWeights ⟨"use_2012_values", 0, 0, 0, 1/2⟩ [⟨"20-24", "M", 1, 2, 3⟩] c
        = (r.s1, r.s2, r.s3)) ∧
    ∃ warns, applyScenarioChecked ⟨"use_2012_values", 0, 0, 0, 1/2⟩
        (some [⟨"20-24", "M", 1, 2, 3⟩])
        [⟨"20-24", "M", 100, 2/10, 5/10, 3/10, 10⟩,
         ⟨"65-69", "K", 50, 4/10, 4/10, 2/10, 7⟩]
        = Except.ok ([⟨"20-24", "M", 100, 2/10, 5/10, 3/10, 10⟩,
            (⟨"65-69", "K", 50, 4/10, 4/10, 2/10, 7⟩ : Cell)].map
              (altWeights ⟨"use_2012_values", 0, 0, 0, 1/2⟩ [⟨"20-24", "M", 1, 2, 3⟩]),
            warns) ∧
      (0 < unmatchedCount [⟨"20-24", "M", 1, 2, 3⟩]
          [⟨"20-24", "M", 100, 2/10, 5/10, 3/10, 10⟩,
           ⟨"65-69", "K", 50, 4/10, 4/10, 2/10, 7⟩] →
        warns = [histWarning (unmatchedCount [⟨"20-24", "M", 1, 2, 3⟩]
          [⟨"20-24", "M", 100, 2/10, 5/10, 3/10, 10⟩,
           ⟨"65-69", "K", 50, 4/10, 4/10, 2/10, 7⟩])]) ∧
      (unmatchedCount [⟨"20-24", "M", 1, 2, 3⟩]
          [⟨"20-24", "M", 100, 2/10, 5/10, 3/10, 10⟩,
           ⟨"65-69", "K", 50, 4/10, 4/10, 2/10, 7⟩] = 0 → warns = []) :=
  historical_substitution_fallback ⟨"use_2012_values", 0, 0, 0, 1/2⟩
    [⟨"20-24", "M", 1, 2, 3⟩]
    [⟨"20-24", "M", 100, 2/10, 5/10, 3/10, 10⟩,
     ⟨"65-69", "K", 50, 4/10, 4/10, 2/10, 7⟩] rfl

/-! ## C4 -/

/-- C4 (amended): the variable boundary of lines 781-790 catches only
`ZeroDivisionError`: such an error is turned into a `NaN` summary row and the
loop continues, leaving the previously computed rows intact; any other
exception raised by a variable's body propagates out of the loop and aborts
the whole run (re-raised at lines 935-937), discarding the summary. -/
theorem variable_boundary_amended :
    (∀ (pre : List (String × SummaryRow)) (v : String)
        (rest : List (String × Except PyExc SummaryRow)),
      runLoop (pre.map (fun q => (q.1, Except.ok q.2))
          ++ (v, Except.error PyExc.zeroDivisionError) :: rest)
        = (runLoop rest).map (fun rs => pre.map Prod.snd ++ nanRow v :: rs)) ∧
    (∀ (pre : List (String × SummaryRow)) (v : String)
        (rest : List (String × Except PyExc SummaryRow)) (e : PyExc),
      e ≠ PyExc.zeroDivisionError →
      runLoop (pre.map (fun q => (q.1, Except.ok q.2))
          ++ (v, Except.error e) :: rest)
        = Except.error e) := by
  constructor
  · intro pre v rest
    induction pre with
    | nil =>
      simp only [List.map_nil, List.nil_append]
      rw [runLoop]
      cases runLoop rest <;> rfl
    | cons q qs ih =>
      simp only [List.map_cons, List.cons_append]
      rw [runLoop]
      unfold handleVariable
      rw [ih]
      cases runLoop rest <;> rfl
  · intro pre v rest e he
    induction pre with
    | nil =>
      simp only [List.map_nil, List.nil_append]
      rw [runLoop]
      have : handleVariable v (Except.error e) = Except.error e := by
        cases e with
        | zeroDivisionError => exact absurd rfl he
        | valueError m => rfl
        | missingVariables vs => rfl
        | otherError m => rfl
      rw [this]
    | cons q qs ih =>
      simp only [List.map_cons, List.cons_append]
      rw [runLoop]
      unfold handleVariable
      rw [ih]
      rfl

/-- Witness for C4 (amended): a two-variable run where the second variable
raises a non-`ZeroDivisionError` exception aborts with that error, and a
run where it raises `ZeroDivisionError` keeps the first row and appends a
NaN row. -/
theorem variable_boundary_amended_witness :
    runLoop [("v1", Except.ok ⟨"v1", some 1, some 1, some 0, some 0⟩),
        ("v2", Except.error (PyExc.otherError "unexpected"))]
      = Except.error (PyExc.otherError "unexpected") ∧
    runLoop [("v1", Except.ok ⟨"v1", some 1, some 1, some 0, some 0⟩),
        ("v2", Except.error PyExc.zeroDivisionError)]
      = Except.ok [⟨"v1", some 1, some 1, some 0, some 0⟩, nanRow "v2"] := by
  constructor
  · exact variable_boundary_amended.2 [("v1", ⟨"v1", some 1, some 1, some 0, some 0⟩)]
      "v2" [] (PyExc.otherError "unexpected") (by simp)
  · exact variable_boundary_amended.1 [("v1", ⟨"v1", some 1, some 1, some 0, some 0⟩)]
      "v2" []

/-- Counterexample to C4 as stated: a run whose second variable raises an
exception other than `ZeroDivisionError` does not emit a NaN row and
continue — the whole loop (and hence the run) fails with that exception,
losing the first variable's row. -/
theorem variable_boundary_counterexample :
    runLoop [("v1", Except.ok ⟨"v1", some 1, some 1, some 0, some 0⟩),
        ("v2", Except.error (PyExc.otherError "unexpected"))]
      = Except.error (PyExc.otherError "unexpected") ∧
    runLoop [("v1", Except.ok ⟨"v1", some 1, some 1, some 0, some 0⟩),
        ("v2", Except.error (PyExc.otherError "unexpected"))]
      ≠ Except.ok [⟨"v1", some 1, some 1, some 0, some 0⟩, nanRow "v2"] := by
  refine ⟨rfl, ?_⟩
  intro h
  exact Except.noConfusion h

/-! ## C5 -/

/-- Membership in an insertion is membership in the inserted element or the
list. -/
theorem mem_insertSortedBy {α : Type} (lt : α → α → Bool) (x z : α)
    (l : List α) : z ∈ insertSortedBy lt x l ↔ z = x ∨ z ∈ l := by
  induction l with
  | nil => simp [insertSortedBy]
  | cons y ys ih =>
    by_cases h : lt x y
    · simp [insertSortedBy, h]
    · simp only [insertSortedBy, if_neg h, List.mem_cons, ih]
      tauto

/-- Inserting into a sorted list keeps it sorted, for an asymmetric
comparison whose complement is transitive. -/
theorem pairwise_insertSortedBy {α : Type} (lt : α → α → Bool)
    (hasym : ∀ a b, lt a b = true → lt b a = false)
    (htrans : ∀ a b c, lt b a = false → lt c b = false → lt c a = false)
    (x : α) (l : List α) (hl : l.Pairwise (fun a b => lt b a = false)) :
    (insertSortedBy lt x l).Pairwise (fun a b => lt b a = false) := by
  induction l with
  | nil => simp [insertSortedBy]
  | cons y ys ih =>
    rcases List.pairwise_cons.mp hl with ⟨hy, hys⟩
    by_cases h : lt x y
    · rw [insertSortedBy, if_pos h]
      refine List.pairwise_cons.mpr ⟨?_, hl⟩
      intro z hz
      rcases List.mem_cons.mp hz with rfl | hz
      · exact hasym x z h
      · exact htrans x y z (hasym x y h) (hy z hz)
    · rw [insertSortedBy, if_neg h]
      refine List.pairwise_cons.mpr ⟨?_, ih hys⟩
      intro z hz
      rcases (mem_insertSortedBy lt x z ys).mp hz with rfl | hz
      · exact eq_false_of_ne_true h
      · exact hy z hz

/-- The stable insertion sort produces a sorted list. -/
theorem pairwise_sortBy {α : Type} (lt : α → α → Bool)
    (hasym : ∀ a b, lt a b = true → lt b a = false)
    (htrans : ∀ a b c, lt b a = false → lt c b = false → lt c a = false)
    (l : List α) :
    (sortBy lt l).Pairwise (fun a b => lt b a = false) := by
  have key : ∀ (l acc : List α), acc.Pairwise (fun a b => lt b a = false) →
      (l.foldl (fun acc x => insertSortedBy lt x acc) acc).Pairwise
        (fun a b => lt b a = false) := by
    intro l
    induction l with
    | nil => intro acc hacc; simpa using hacc
    | cons x xs ih =>
      intro acc hacc
      exact ih _ (pairwise_insertSortedBy lt hasym htrans x acc hacc)
  exact key l [] (by simp)

/-- The comparison by absolute contribution is asymmetric. -/
theorem absLt_asymm (a b : GroupRow) : absLt a b = true → absLt b a = false := by
  simp only [absLt, decide_eq_true_eq, decide_eq_false_iff_not]
  exact lt_asymm

/-- The complement of the comparison by absolute contribution is
transitive. -/
theorem absLt_compl_trans (a b c : GroupRow) :
    absLt b a = false → absLt c b = false → absLt c a = false := by
  simp only [absLt, decide_eq_false_iff_not, not_lt]
  intro h1 h2
  exact h1.trans h2

/-- C5 (amended): the reported top contributing groups are at most five rows
sorted by `|contribution|` in non-increasing order; on the specification's
concrete example `[+50, -80, +10, -5]` the top-2 is `[-80, +50]` in that
order; but rows tied on `|contribution|` appear in the grouped table's key
order — `(age, sex)` lexicographic, from pandas `groupby`'s default key
sorting — not in cell insertion order. -/
theorem top_contributors_amended :
    (∀ rows : List GroupRow,
      (topGroups rows).Pairwise
        (fun a b => |b.contribution| ≤ |a.contribution|) ∧
      (topGroups rows).length ≤ 5) ∧
    ((topGroups [⟨"20-24", "M", 50⟩, ⟨"25-29", "M", -80⟩,
        ⟨"20-24", "K", 10⟩, ⟨"25-29", "K", -5⟩]).take 2).map GroupRow.contribution
      = [-80, 50] ∧
    topGroups [⟨"30-34", "M", 50⟩, ⟨"20-24", "K", -50⟩]
      = [⟨"20-24", "K", -50⟩, ⟨"30-34", "M", 50⟩] := by
  refine ⟨?_, ?_, ?_⟩
  · intro rows
    constructor
    · have hs := pairwise_sortBy absLt absLt_asymm absLt_compl_trans
        (groupbySum rows).reverse
      have hrev : (sortValuesAbsDesc (groupbySum rows)).Pairwise
          (fun a b => absLt a b = false) := by
        unfold sortValuesAbsDesc
        rw [List.pairwise_reverse]
        exact hs
      have htake : (topGroups rows).Pairwise (fun a b => absLt a b = false) :=
        hrev.sublist (List.take_sublist 5 _)
      refine htake.imp ?_
      intro a b hab
      have := decide_eq_false_iff_not.mp hab
      exact not_lt.mp this
    · unfold topGroups
      exact List.length_take_le 5 _
  · norm_num +decide [topGroups, sortValuesAbsDesc, groupbySum, sortBy,
      insertSortedBy, keyLt, absLt, dedupKeys, List.filter, List.foldl]
  · norm_num +decide [topGroups, sortValuesAbsDesc, groupbySum, sortBy,
      insertSortedBy, keyLt, absLt, dedupKeys, List.filter, List.foldl]

/-- Counterexample to C5 as stated: two cells inserted as
`("30-34","M",+50)` then `("20-24","K",-50)` tie at `|contribution| = 50`;
insertion-order tie-breaking would report the `M` row first, but the
pipeline (whose `groupby` sorts keys lexicographically) reports the `K` row
first. -/
theorem top_contributors_counterexample :
    topGroups [⟨"30-34", "M", 50⟩, ⟨"20-24", "K", -50⟩]
      ≠ [⟨"30-34", "M", 50⟩, ⟨"20-24", "K", -50⟩] ∧
    topGroups [⟨"30-34", "M", 50⟩, ⟨"20-24", "K", -50⟩]
      = [⟨"20-24", "K", -50⟩, ⟨"30-34", "M", 50⟩] := by
  constructor
  · intro h
    have h2 : (topGroups [⟨"30-34", "M", 50⟩, ⟨"20-24", "K", -50⟩]).map GroupRow.age
        = ["30-34", "20-24"] := by rw [h]; rfl
    have h3 : (topGroups [⟨"30-34", "M", 50⟩, ⟨"20-24", "K", -50⟩]).map GroupRow.age
        = ["20-24", "30-34"] := by
      norm_num +decide [topGroups, sortValuesAbsDesc, groupbySum, sortBy,
        insertSortedBy, keyLt, absLt, dedupKeys, List.filter, List.foldl]
    rw [h3] at h2
    exact absurd h2 (by decide)
  · norm_num +decide [topGroups, sortValuesAbsDesc, groupbySum, sortBy,
      insertSortedBy, keyLt, absLt, dedupKeys, List.filter, List.foldl]

/-! ## C9 -/

/-- A non-empty list has a minimum. -/
theorem listMin_isSome (l : List ℚ) (h : l ≠ []) : ∃ m, listMin l = some m := by
  cases l with
  | nil => exact absurd rfl h
  | cons x t =>
    rw [listMin]
    cases listMin t <;> exact ⟨_, rfl⟩

/-- A non-empty list has a maximum. -/
theorem listMax_isSome (l : List ℚ) (h : l ≠ []) : ∃ M, listMax l = some M := by
  cases l with
  | nil => exact absurd rfl h
  | cons x t =>
    rw [listMax]
    cases listMax t <;> exact ⟨_, rfl⟩

/-- The minimum bounds every element from below. -/
theorem listMin_le (l : List ℚ) (m : ℚ) (h : listMin l = some m) :
    ∀ x ∈ l, m ≤ x := by
  induction l generalizing m with
  | nil => simp
  | cons y t ih =>
    rw [listMin] at h
    intro x hx
    rcases List.mem_cons.mp hx with rfl | hx
    · cases ht : listMin t with
      | none => rw [ht] at h; exact le_of_eq (Option.some_injective _ h).symm
      | some mt =>
        rw [ht] at h
        have hm : m = min x mt := (Option.some_injective _ h).symm
        rw [hm]
        exact min_le_left x mt
    · cases ht : listMin t with
      | none =>
        rcases (listMin_isSome t (by rintro rfl; simp at hx)) with ⟨mt, hmt⟩
        rw [hmt] at ht
        exact absurd ht (by simp)
      | some mt =>
        rw [ht] at h
        have hm : m = min y mt := (Option.some_injective _ h).symm
        rw [hm]
        exact le_trans (min_le_right y mt) (ih mt ht x hx)

/-- The maximum bounds every element from above. -/
theorem le_listMax (l : List ℚ) (M : ℚ) (h : listMax l = some M) :
    ∀ x ∈ l, x ≤ M := by
  induction l generalizing M with
  | nil => simp
  | cons y t ih =>
    rw [listMax] at h
    intro x hx
    rcases List.mem_cons.mp hx with rfl | hx
    · cases ht : listMax t with
      | none => rw [ht] at h; exact le_of_eq (Option.some_injective _ h)
      | some Mt =>
        rw [ht] at h
        have hM : M = max x Mt := (Option.some_injective _ h).symm
        rw [hM]
        exact le_max_left x Mt
    · cases ht : listMax t with
      | none =>
        rcases (listMax_isSome t (by rintro rfl; simp at hx)) with ⟨Mt, hMt⟩
        rw [hMt] at ht
        exact absurd ht (by simp)
      | some Mt =>
        rw [ht] at h
        have hM : M = max y Mt := (Option.some_injective _ h).symm
        rw [hM]
        exact le_trans (ih Mt ht x hx) (le_max_right y Mt)

/-- Upper bound on the weighted sum: with non-negative weights and values of
weight-carrying cells bounded by `M`, the weighted sum is at most `M` times
the total weight. -/
theorem weightedSum_le (l : List Cell) (M : ℚ)
    (hpos : ∀ c ∈ l, 0 ≤ c.population)
    (hM : ∀ c ∈ l, c.population ≠ 0 → c.x ≤ M) :
    (l.map (fun c => c.x * c.population)).sum ≤ M * (l.map Cell.population).sum := by
  induction l with
  | nil => simp
  | cons c cs ih =>
    simp only [List.map_cons, List.sum_cons, mul_add]
    have h1 : c.x * c.population ≤ M * c.population := by
      by_cases hz : c.population = 0
      · simp [hz]
      · exact mul_le_mul_of_nonneg_right (hM c (by simp) hz) (hpos c (by simp))
    have h2 := ih (fun d hd => hpos d (by simp [hd])) (fun d hd => hM d (by simp [hd]))
    exact add_le_add h1 h2

/-- Lower bound on the weighted sum, symmetric to `weightedSum_le`. -/
theorem le_weightedSum (l : List Cell) (m : ℚ)
    (hpos : ∀ c ∈ l, 0 ≤ c.population)
    (hm : ∀ c ∈ l, c.population ≠ 0 → m ≤ c.x) :
    m * (l.map Cell.population).sum ≤ (l.map (fun c => c.x * c.population)).sum := by
  induction l with
  | nil => simp
  | cons c cs ih =>
    simp only [List.map_cons, List.sum_cons, mul_add]
    have h1 : m * c.population ≤ c.x * c.population := by
      by_cases hz : c.population = 0
      · simp [hz]
      · exact mul_le_mul_of_nonneg_right (hm c (by simp) hz) (hpos c (by simp))
    have h2 := ih (fun d hd => hpos d (by simp [hd])) (fun d hd => hm d (by simp [hd]))
    exact add_le_add h1 h2

/-- C9 (amended): for every table with non-negative populations, non-zero
total population, and a non-zero decomposition denominator in every cell,
the population-weighted baseline aggregate `result_bs` is a number lying
within `[min x, max x]` over the cells with non-zero population. -/
theorem weighted_bound_amended (p : ParamRow) (cells : List Cell)
    (hpos : ∀ c ∈ cells, 0 ≤ c.population)
    (hW : (cells.map Cell.population).sum ≠ 0)
    (hden : ∀ c ∈ cells, denominator c (ratio_s_n p c) (ratio_w_s p c) ≠ 0) :
    ∃ r m M, resultBsE p cells = Except.ok (some r) ∧
      listMin ((nzCells cells).map Cell.x) = some m ∧
      listMax ((nzCells cells).map Cell.x) = some M ∧
      m ≤ r ∧ r ≤ M := by
  have hWpos : 0 < (cells.map Cell.population).sum := by
    rcases lt_or_eq_of_le (List.sum_nonneg (by
      intro w hw
      rcases List.mem_map.mp hw with ⟨c, hc, rfl⟩
      exact hpos c hc)) with h | h
    · exact h
    · exact absurd h.symm hW
  have hnz : nzCells cells ≠ [] := by
    intro hnil
    apply hW
    apply List.sum_eq_zero
    intro w hw
    rcases List.mem_map.mp hw with ⟨c, hc, rfl⟩
    by_contra hcz
    have : c ∈ nzCells cells := by
      unfold nzCells
      rw [List.mem_filter]
      exact ⟨hc, by simpa using hcz⟩
    rw [hnil] at this
    simp at this
  have hmap : ((nzCells cells).map Cell.x) ≠ [] := by
    intro h
    exact hnz (List.map_eq_nil_iff.mp h)
  rcases listMin_isSome _ hmap with ⟨m, hmin⟩
  rcases listMax_isSome _ hmap with ⟨M, hmax⟩
  have hmem : ∀ c ∈ cells, c.population ≠ 0 → c.x ∈ (nzCells cells).map Cell.x := by
    intro c hc hcz
    apply List.mem_map_of_mem
    unfold nzCells
    rw [List.mem_filter]
    exact ⟨hc, by simpa using hcz⟩
  have hS := resultBsE_eq p cells hW hden
  refine ⟨_, m, M, hS, hmin, hmax, ?_, ?_⟩
  · rw [le_div_iff₀ hWpos]
    exact le_weightedSum cells m hpos
      (fun c hc hcz => listMin_le _ m hmin c.x (hmem c hc hcz))
  · rw [div_le_iff₀ hWpos]
    calc (cells.map (fun c => c.x * c.population)).sum
        ≤ M * (cells.map Cell.population).sum :=
          weightedSum_le cells M hpos
            (fun c hc hcz => le_listMax _ M hmax c.x (hmem c hc hcz))
      _ = (cells.map Cell.population).sum * M := mul_comm _ _
      _ = M * (cells.map Cell.population).sum := mul_comm _ _

/-- Witness for C9 (amended) on a concrete two-cell table. -/
theorem weighted_bound_amended_witness :
    ∃ r m M, resultBsE ⟨1, 1, 1, 1, []⟩
        [⟨"20-24", "M", 1, 1, 0, 0, 10⟩, ⟨"25-29", "K", 3, 1, 0, 0, 20⟩]
      = Except.ok (some r) ∧
      listMin ((nzCells [⟨"20-24", "M", 1, 1, 0, 0, 10⟩,
        ⟨"25-29", "K", 3, 1, 0, 0, 20⟩]).map Cell.x) = some m ∧
      listMax ((nzCells [⟨"20-24", "M", 1, 1, 0, 0, 10⟩,
        ⟨"25-29", "K", 3, 1, 0, 0, 20⟩]).map Cell.x) = some M ∧
      m ≤ r ∧ r ≤ M :=
  weighted_bound_amended ⟨1, 1, 1, 1, []⟩
    [⟨"20-24", "M", 1, 1, 0, 0, 10⟩, ⟨"25-29", "K", 3, 1, 0, 0, 20⟩]
    (by intro c hc; fin_cases hc <;> norm_num)
    (by norm_num)
    (by intro c hc; fin_cases hc <;> norm_num +decide [denominator, ratio_s_n, ratio_w_s])

/-- Counterexample to C9 as stated: a one-cell table with population `1`
(non-negative, non-zero total) whose denominator `1 + (-1)*1 + 0` is zero.
The raw value is `10`, so the claimed interval is `[10, 10]`, but
`result_bs` is `NaN` (`none`), not a number in that interval. -/
theorem weighted_bound_counterexample :
    resultBsE ⟨1, 1, 1, 1, []⟩ [⟨"20-24", "M", 1, 1, -1, 0, 10⟩]
      = Except.ok none ∧
    listMin ((nzCells [⟨"20-24", "M", 1, 1, -1, 0, 10⟩]).map Cell.x) = some 10 ∧
    listMax ((nzCells [⟨"20-24", "M", 1, 1, -1, 0, 10⟩]).map Cell.x) = some 10 ∧
    ¬ ∃ r, resultBsE ⟨1, 1, 1, 1, []⟩ [⟨"20-24", "M", 1, 1, -1, 0, 10⟩]
        = Except.ok (some r) ∧ 10 ≤ r ∧ r ≤ 10 := by
  have hbs : resultBsE ⟨1, 1, 1, 1, []⟩ [⟨"20-24", "M", 1, 1, -1, 0, 10⟩]
      = Except.ok none := by
    norm_num +decide [resultBsE, npAverage, sumOption, value_bs, mkLayers,
      denominator, recombine, ratio_s_n, ratio_w_s]
  refine ⟨hbs, ?_, ?_, ?_⟩
  · norm_num +decide [nzCells, listMin, List.filter]
  · norm_num +decide [nzCells, listMax, List.filter]
  · rintro ⟨r, hr, _⟩
    rw [hbs] at hr
    have := Except.ok.inj hr
    exact Option.noConfusion this

end Simulation2
